import Mathlib

/-!
Shallow embedding of the signal decision engine of
`telegram-indicator-bot.py` (analysis engine `analyze`, strength meter
`get_strength`, and the main loop body of `run_bot`).

Modelling conventions:
* Python floats appear in the source only through order comparisons, so a
  cell value is modelled as `Val := Option ℚ`, where `none` stands for NaN:
  every comparison against NaN is `false`, as in IEEE / Python semantics.
* A pandas column that was never assigned (because the indicator helper
  returned `None` and the guarded assignment was skipped) is modelled by an
  outer `Option`: reading it raises `KeyError`, which we model with
  `Except Unit`.
* Wall-clock time is modelled as whole seconds since the epoch (`ℕ`);
  `datetime.hour` becomes `t / 3600 % 24`.
-/

namespace IndicatorBot

/-- A float cell: `none` is NaN. -/
abbrev Val := Option ℚ

/-- `a > b` on floats: false whenever either side is NaN. -/
def vgt : Val → Val → Bool
  | some a, some b => decide (b < a)
  | _, _ => false

/-- `a < b` on floats: false whenever either side is NaN. -/
def vlt : Val → Val → Bool
  | some a, some b => decide (a < b)
  | _, _ => false

/-- `a <= b` on floats: false whenever either side is NaN. -/
def vle : Val → Val → Bool
  | some a, some b => decide (a ≤ b)
  | _, _ => false

/-- `a >= b` on floats: false whenever either side is NaN. -/
def vge : Val → Val → Bool
  | some a, some b => decide (b ≤ a)
  | _, _ => false

/-- `MIN_ATR = 0.00008`, the volatility floor. -/
def MIN_ATR : ℚ := 8 / 100000

/-- `COOLDOWN_MIN = 5`. -/
def COOLDOWN_MIN : ℕ := 5

/-- `START_HOUR = 9`. -/
def START_HOUR : ℕ := 9

/-- `END_HOUR = 21`. -/
def END_HOUR : ℕ := 21

/-- The fixed instrument universe `PAIRS`. -/
def PAIRS : List String :=
  ["EURUSD=X", "AUDCHF=X", "GBPCHF=X", "EURCAD=X", "AUDCAD=X", "USDCHF=X",
   "CADCHF=X", "AUDJPY=X", "CADJPY=X", "EURJPY=X", "USDJPY=X", "GBPUSD=X",
   "EURGBP=X", "GBPJPY=X", "GBPAUD=X"]

/-- `p[:3]`, the base currency of a pair symbol. -/
def baseOf (p : String) : String := p.take 3

/-- `p[3:6]`, the quote currency of a pair symbol. -/
def quoteOf (p : String) : String := (p.drop 3).take 3

/-- The directional signal returned by `analyze` (the strings
`"BUY (CALL) 🟢"` / `"SELL (PUT) 🔴"` in the source; only the `"BUY"` /
`"SELL"` substring is ever inspected downstream). -/
inductive Signal
  | buy
  | sell
deriving DecidableEq, Repr

/-- What the external data and indicator libraries hand to one `analyze`
call, read off the dataframe for one pair:

* `dfSome`/`dfLen`: whether `df` is not `None`, and `len(df)`.
* `atrCol`: `df["atr"].iloc[-1]` after line 34; the outer `none` means
  `ta.atr` returned `None` so the cell holds Python `None` (comparing it
  raises); the inner `none` is NaN.
* `rsiCol`: `latest["rsi"]` after line 37, same convention (the source
  assigns `ta.rsi`'s result unguarded).
* `macdCols`: `none` iff `macd_df is None`, in which case the columns
  `macd_line`/`macd_signal` are never created and reading them raises
  `KeyError`; otherwise the latest row's `(macd_line, macd_signal)`.
* `stochCols`: likewise for `st_k`/`st_d`; holds
  `(latest st_k, latest st_d, prev st_k, prev st_d)`. -/
structure AnalyzeInput where
  dfSome : Bool
  dfLen : ℕ
  atrCol : Option Val
  rsiCol : Option Val
  macdCols : Option (Val × Val)
  stochCols : Option (Val × Val × Val × Val)
deriving DecidableEq, Repr

/-- Result of one `analyze` call: `ok s` is a normal return of the Python
value `s` (`none` = no signal), `exn` is an uncaught exception escaping the
call (KeyError / TypeError). -/
inductive AResult
  | ok (s : Option Signal)
  | exn
deriving DecidableEq, Repr

/-- Line 52–53: the `buy` expression, with Python's left-to-right
short-circuit evaluation; reading a column that was never assigned raises
(the `none` result). -/
def buyExpr (a : AnalyzeInput) : Option Bool :=
  match a.rsiCol with
  | none => none                 -- `None > 50` raises TypeError
  | some r =>
    if vgt r (some 50) then
      match a.macdCols with
      | none => none             -- KeyError "macd_line"
      | some (ml, ms) =>
        if vgt ml ms then
          match a.stochCols with
          | none => none         -- KeyError "st_k"
          | some (k, d, pk, pd) => some (vgt k d && vle pk pd)
        else some false
    else some false

/-- Line 54–55: the `sell` expression, same conventions as `buyExpr`. -/
def sellExpr (a : AnalyzeInput) : Option Bool :=
  match a.rsiCol with
  | none => none
  | some r =>
    if vlt r (some 50) then
      match a.macdCols with
      | none => none
      | some (ml, ms) =>
        if vlt ml ms then
          match a.stochCols with
          | none => none
          | some (k, d, pk, pd) => some (vlt k d && vge pk pd)
        else some false
    else some false

/-- The analysis engine `analyze(df, pair)` (lines 30–59).  `.ok none` is
Python `None` (no signal).  Note `df["atr"] is None` on line 35 is always
false once the column has been assigned, so only the `< MIN_ATR`
comparison remains. -/
def analyze (a : AnalyzeInput) : AResult :=
  if !a.dfSome || a.dfLen < 30 then .ok none
  else
    match a.atrCol with
    | none => .exn               -- `None < MIN_ATR` raises TypeError
    | some atr =>
      if vlt atr (some MIN_ATR) then .ok none
      else if a.dfLen < 2 then .ok none
      else
        match buyExpr a with
        | none => .exn
        | some buy =>
          match sellExpr a with
          | none => .exn
          | some sell =>
            if buy then .ok (some .buy)
            else if sell then .ok (some .sell)
            else .ok none

/-- A fully populated input: every indicator column present with a real
(non-NaN) value. -/
def populated (rsi ml ms k d pk pd atr : ℚ) (n : ℕ) : AnalyzeInput :=
  ⟨true, n, some (some atr), some (some rsi), some (some ml, some ms),
   some (some k, some d, some pk, some pd)⟩

/-- The keys of the `strengths` dict on line 66, in insertion order. -/
def CURRENCIES : List String :=
  ["EUR", "USD", "GBP", "JPY", "AUD", "CAD", "CHF"]

/-- The strength meter's input: the latest RSI value per pair from the
coarse 15m snapshot; `none` means the pair is absent from the download, or
its RSI series is `None`/empty (all three make line 67's loop `continue`).
The loop only ever consults pairs in `PAIRS`. -/
abbrev Snapshot := String → Option ℚ

/-- The list `strengths[c]` after the loop on lines 67–74 has run over the
pairs `l`: contributions collected in pair iteration order, the base
appending `r` and the quote appending `100 - r`, each guarded by membership
in the dict's key set (`if b in strengths` / `if q in strengths`). -/
def contribs (snap : Snapshot) (c : String) : List String → List ℚ
  | [] => []
  | p :: rest =>
    (match snap p with
      | none => []
      | some r =>
        (if baseOf p = c ∧ c ∈ CURRENCIES then [r] else []) ++
          (if quoteOf p = c ∧ c ∈ CURRENCIES then [100 - r] else [])) ++
      contribs snap c rest

/-- `sum(v)/len(v)`. -/
def mean (l : List ℚ) : ℚ := l.sum / l.length

/-- The dict comprehension on line 75: for each key in insertion order,
keep it iff its list is nonempty, scored by the mean. -/
def strengthItems (snap : Snapshot) : List (String × ℚ) :=
  CURRENCIES.filterMap fun c =>
    if contribs snap c PAIRS = [] then none
    else some (c, mean (contribs snap c PAIRS))

/-- The comparison realised by `sorted(..., key=lambda x: x[1],
reverse=True)`: `a` may precede `b` iff its score is not smaller.  CPython's
sort is stable, so a stable merge sort along this total preorder computes
the same list. -/
def scoreLe (a b : String × ℚ) : Bool := decide (b.2 ≤ a.2)

/-- `get_strength()` (lines 62–77), as a function of the snapshot.  The
`except` branch and the `isinstance(data, pd.Series)` guard (both returning
`[]`) are upstream failures folded into the snapshot model. -/
def get_strength (snap : Snapshot) : List (String × ℚ) :=
  (strengthItems snap).mergeSort scoreLe

/-- The eligibility test on lines 109–110 (`sig` holds `"BUY"` exactly for
buy signals and `"SELL"` exactly for sell signals). -/
def eligible (sig : Signal) (base quote : String) (top3 bot3 : List String) :
    Bool :=
  match sig with
  | .buy => top3.contains base || bot3.contains quote
  | .sell => bot3.contains base || top3.contains quote

/-- How the `for p in PAIRS` loop of lines 103–114 ended. -/
inductive ScanOutcome
  | dispatched (p : String)
  | exhausted
  | raised
deriving DecidableEq, Repr

/-- Trace of one loop over the pairs: which pairs `analyze` ran on (in
order), which messages were delivered, and how the loop ended. -/
structure ScanResult where
  evaluated : List String
  sends : List String
  outcome : ScanOutcome
deriving DecidableEq, Repr

/-- The `for p in PAIRS` loop of lines 103–114.  `sendOK p = false` means
`bot.send_message` raises for that message; an exception from `analyze` or
from the send escapes the loop (it is caught by the `except` on line 115,
outside the loop). -/
def scanPairs (data : String → AnalyzeInput) (sendOK : String → Bool)
    (top3 bot3 : List String) : List String → ScanResult
  | [] => ⟨[], [], .exhausted⟩
  | p :: rest =>
    match analyze (data p) with
    | .exn => ⟨[p], [], .raised⟩
    | .ok none =>
      let r := scanPairs data sendOK top3 bot3 rest
      ⟨p :: r.evaluated, r.sends, r.outcome⟩
    | .ok (some sig) =>
      if eligible sig (baseOf p) (quoteOf p) top3 bot3 then
        if sendOK p then ⟨[p], [p], .dispatched p⟩
        else ⟨[p], [], .raised⟩
      else
        let r := scanPairs data sendOK top3 bot3 rest
        ⟨p :: r.evaluated, r.sends, r.outcome⟩

/-- `now.hour` for a wall clock counted in whole seconds since midnight of
some epoch day. -/
def hourOf (t : ℕ) : ℕ := t / 3600 % 24

/-- The guard on line 95:
`START_HOUR <= now.hour < END_HOUR and now > last + timedelta(minutes=5)`. -/
def gateOpen (now last : ℕ) : Bool :=
  decide (START_HOUR ≤ hourOf now) && decide (hourOf now < END_HOUR) &&
    decide (last + COOLDOWN_MIN * 60 < now)

/-- What one iteration of the `while True` loop did (besides sleeping). -/
inductive TickAction
  | idle
  | skippedEmptyRank
  | ran (r : ScanResult)
deriving DecidableEq, Repr

/-- The external world for one tick: the strength snapshot, the per-pair
dataframe contents, and whether the notification sink accepts a message. -/
structure Env where
  snap : Snapshot
  data : String → AnalyzeInput
  sendOK : String → Bool

/-- `[r[0] for r in rank[:3]]`. -/
def top3Of (rank : List (String × ℚ)) : List String :=
  (rank.take 3).map Prod.fst

/-- `[r[0] for r in rank[-3:]]` (the last `min 3 (length rank)` entries). -/
def bot3Of (rank : List (String × ℚ)) : List String :=
  (rank.drop (rank.length - 3)).map Prod.fst

/-- The scan of lines 102–114 for a given environment: slice the ranking
into top-3/bottom-3 and loop over `PAIRS`. -/
def passResult (e : Env) : ScanResult :=
  scanPairs e.data e.sendOK (top3Of (get_strength e.snap))
    (bot3Of (get_strength e.snap)) PAIRS

/-- One iteration of the main loop (lines 94–116): the evaluation gate, the
empty-rank skip, the scan, and the resulting `last_signal_time`.  The
update `last_signal_time = now` on line 114 runs only after a successful
send; any exception inside the `try` leaves it untouched. -/
def tickStep (e : Env) (now last : ℕ) : ℕ × TickAction :=
  if gateOpen now last then
    if (get_strength e.snap).isEmpty then (last, .skippedEmptyRank)
    else
      match (passResult e).outcome with
      | .dispatched _ => (now, .ran (passResult e))
      | _ => (last, .ran (passResult e))
  else (last, .idle)

/-- A hypothetical variant of `analyze` that tests the SELL rule before the
BUY rule on lines 57–58 (the indicator expressions of lines 52–55 are still
evaluated in source order); used to show the test order is immaterial. -/
def analyzeSellFirst (a : AnalyzeInput) : AResult :=
  if !a.dfSome || a.dfLen < 30 then .ok none
  else
    match a.atrCol with
    | none => .exn
    | some atr =>
      if vlt atr (some MIN_ATR) then .ok none
      else if a.dfLen < 2 then .ok none
      else
        match buyExpr a with
        | none => .exn
        | some buy =>
          match sellExpr a with
          | none => .exn
          | some sell =>
            if sell then .ok (some .sell)
            else if buy then .ok (some .buy)
            else .ok none

/-- A pair produces an eligible signal: `analyze` returns a signal and the
gate on lines 109–110 passes. -/
def hitBy (data : String → AnalyzeInput) (top3 bot3 : List String)
    (p : String) : Bool :=
  match analyze (data p) with
  | .ok (some sig) => eligible sig (baseOf p) (quoteOf p) top3 bot3
  | _ => false

/-- Concrete symbols used in witnesses and counterexamples. -/
def pEURUSD : String := "EURUSD=X"

def cEUR : String := "EUR"

def cUSD : String := "USD"

/-- A snapshot with no data at all: `get_strength` yields the empty
ranking. -/
def snapNone : Snapshot := fun _ => none

/-- A snapshot giving RSI 60 to EURUSD and nothing to any other pair. -/
def snapEU : Snapshot := fun p => if p = pEURUSD then some 60 else none

/-- A dataframe assignment under which EURUSD carries a fresh BUY setup and
every other pair's dataframe is missing. -/
def dataBuy : String → AnalyzeInput := fun p =>
  if p = pEURUSD then populated 60 1 0 2 1 0 1 1 30
  else ⟨false, 0, none, none, none, none⟩

/-- EURUSD's dataframe when `ta.macd` returned no result: 30 bars, healthy
ATR, RSI 60, `macd_line`/`macd_signal` columns never created, stochastics
present. -/
def inMacdMissing : AnalyzeInput :=
  ⟨true, 30, some (some 1), some (some 60), none,
   some (some 2, some 1, some 0, some 1)⟩

/-- Dataframes where EURUSD's MACD columns are missing while every other
pair is fully analysable (RSI pinned at 50, so no signal). -/
def dataMacdMissing : String → AnalyzeInput := fun p =>
  if p = pEURUSD then inMacdMissing else populated 50 0 0 0 0 0 0 1 30

/-- A tick environment whose pass finds an eligible BUY on EURUSD but whose
notification sink raises on every send. -/
def envSendFail : Env := ⟨snapEU, dataBuy, fun _ => false⟩

/-- The same environment with a healthy notification sink. -/
def envSendNormal : Env := ⟨snapEU, dataBuy, fun _ => true⟩

/-- An environment with no market data at all. -/
def envNull : Env :=
  ⟨snapNone, fun _ => ⟨false, 0, none, none, none, none⟩, fun _ => true⟩

/-- The environment of the C4 counterexample: EURUSD's MACD columns are
missing, everything else analysable. -/
def envMacdMissing : Env := ⟨snapEU, dataMacdMissing, fun _ => true⟩

/-! ## Helper lemmas and evaluation sanity checks -/

lemma analyze_buy_sample : analyze (populated 60 1 0 2 1 0 1 1 30) =
    .ok (some .buy) := by
  with_unfolding_all decide

lemma analyze_sell_sample : analyze (populated 40 0 1 1 2 1 0 1 30) =
    .ok (some .sell) := by
  with_unfolding_all decide

lemma analyze_stale_crossover_sample :
    analyze (populated 60 1 0 2 1 1 0 1 30) = .ok none := by
  with_unfolding_all decide

lemma get_strength_sample : get_strength snapEU = [(cEUR, 60), (cUSD, 40)] := by
  with_unfolding_all decide

lemma buyExpr_cols {a : AnalyzeInput} {rv mlv msv kv dv pkv pdv : Val}
    (hr : a.rsiCol = some rv) (hm : a.macdCols = some (mlv, msv))
    (hst : a.stochCols = some (kv, dv, pkv, pdv)) :
    buyExpr a =
      some (vgt rv (some 50) && (vgt mlv msv && (vgt kv dv && vle pkv pdv))) := by
  unfold buyExpr
  rw [hr, hm, hst]
  by_cases h1 : vgt rv (some 50) = true
  · by_cases h2 : vgt mlv msv = true <;> simp [h1, h2]
  · simp [Bool.not_eq_true] at h1
    simp [h1]

lemma sellExpr_cols {a : AnalyzeInput} {rv mlv msv kv dv pkv pdv : Val}
    (hr : a.rsiCol = some rv) (hm : a.macdCols = some (mlv, msv))
    (hst : a.stochCols = some (kv, dv, pkv, pdv)) :
    sellExpr a =
      some (vlt rv (some 50) && (vlt mlv msv && (vlt kv dv && vge pkv pdv))) := by
  unfold sellExpr
  rw [hr, hm, hst]
  by_cases h1 : vlt rv (some 50) = true
  · by_cases h2 : vlt mlv msv = true <;> simp [h1, h2]
  · simp [Bool.not_eq_true] at h1
    simp [h1]

lemma analyze_cols {a : AnalyzeInput} {av : ℚ} {rv mlv msv kv dv pkv pdv : Val}
    (hdf : a.dfSome = true) (hlen : 30 ≤ a.dfLen)
    (ha : a.atrCol = some (some av)) (hatr : MIN_ATR ≤ av)
    (hr : a.rsiCol = some rv) (hm : a.macdCols = some (mlv, msv))
    (hst : a.stochCols = some (kv, dv, pkv, pdv)) :
    analyze a = .ok
      (if vgt rv (some 50) && (vgt mlv msv && (vgt kv dv && vle pkv pdv))
        then some .buy
        else if vlt rv (some 50) && (vlt mlv msv && (vlt kv dv && vge pkv pdv))
          then some .sell
          else none) := by
  have h30 : ¬(a.dfLen < 30) := by omega
  have h2 : ¬(a.dfLen < 2) := by omega
  have hv : vlt (some av) (some MIN_ATR) = false := by
    simp only [vlt, decide_eq_false_iff_not, not_lt]
    exact hatr
  unfold analyze
  rw [hdf, ha, buyExpr_cols hr hm hst, sellExpr_cols hr hm hst]
  simp only [Bool.not_true, Bool.false_or, decide_eq_false h30, hv,
    if_neg h2, Bool.false_eq_true, if_false]
  by_cases hb : (vgt rv (some 50) && (vgt mlv msv && (vgt kv dv && vle pkv pdv)))
      = true <;>
    by_cases hs : (vlt rv (some 50) && (vlt mlv msv && (vlt kv dv && vge pkv pdv)))
      = true <;>
    simp [hb, hs]

lemma buy_sell_not_both (a : AnalyzeInput) (hb : buyExpr a = some true) :
    sellExpr a ≠ some true := by
  unfold buyExpr at hb
  unfold sellExpr
  cases hrc : a.rsiCol with
  | none => rw [hrc] at hb; simp at hb
  | some rv =>
    rw [hrc] at hb
    cases rv with
    | none => simp [vgt] at hb
    | some r =>
      by_cases h : (50 : ℚ) < r
      · have hr : ¬(r < 50) := by linarith
        simp [vlt, hr]
      · simp [vgt, h] at hb

/-! ## C8, C2, C9 -/

/-- C8: for every input Series with fewer than 30 bars, or a missing
Series, `analyze` takes the insufficient-data early return on line 31, so
the classifier output for that instrument is `None` (no signal). -/
theorem insufficient_history_none (a : AnalyzeInput)
    (h : a.dfSome = false ∨ a.dfLen < 30) : analyze a = .ok none := by
  unfold analyze
  rcases h with h | h <;> simp [h]

theorem insufficient_history_none_witness :
    analyze (populated 60 1 0 2 1 0 1 1 29) = .ok none :=
  insufficient_history_none _ (Or.inr (by decide))

/-- C2: the gate on lines 109–110 declares a BUY eligible iff the base is
in the top-3 list or the quote is in the bottom-3 list, and a SELL eligible
iff the base is in the bottom-3 list or the quote is in the top-3 list. -/
theorem gate_rule (base quote : String) (top3 bot3 : List String) :
    (eligible .buy base quote top3 bot3 = true ↔
        base ∈ top3 ∨ quote ∈ bot3) ∧
      (eligible .sell base quote top3 bot3 = true ↔
        base ∈ bot3 ∨ quote ∈ top3) := by
  constructor <;> simp [eligible]

/-- C9: the BUY and SELL rule sets of lines 52–55 are mutually exclusive
(BUY needs `rsi > 50`, SELL needs `rsi < 50`), so testing SELL before BUY
on lines 57–58 classifies every input identically. -/
theorem buy_sell_exclusive :
    (∀ a : AnalyzeInput, ¬(buyExpr a = some true ∧ sellExpr a = some true)) ∧
      ∀ a : AnalyzeInput, analyzeSellFirst a = analyze a := by
  constructor
  · rintro a ⟨hb, hs⟩
    exact buy_sell_not_both a hb hs
  · intro a
    unfold analyzeSellFirst analyze
    split
    · rfl
    · split
      · rfl
      · split
        · rfl
        · split
          · rfl
          · rcases hbe : buyExpr a with _ | b
            · rfl
            · rcases hse : sellExpr a with _ | s
              · rfl
              · cases b
                · cases s <;> rfl
                · cases s
                  · rfl
                  · exact absurd hse (buy_sell_not_both a hbe)

/-! ## C1: the classification rule on fully populated rows -/

/-- C1: on fully populated indicator rows (length ≥ 30 and ATR at or above
the floor, so the classifier is reached), `analyze` returns BUY exactly
when `rsi > 50`, `macd_line > macd_signal`, `st_k > st_d` and the previous
row has `st_k ≤ st_d`; SELL exactly under the mirrored strict inequalities
with the previous row's `st_k ≥ st_d`; otherwise no signal.  In particular
`st_k > st_d` in both rows yields no signal even when the RSI and MACD
conditions hold. -/
theorem classifier_rule (rsi ml ms k d pk pd atr : ℚ) (n : ℕ)
    (hn : 30 ≤ n) (hatr : MIN_ATR ≤ atr) :
    (analyze (populated rsi ml ms k d pk pd atr n) = .ok
      (if 50 < rsi ∧ ms < ml ∧ d < k ∧ pk ≤ pd then some .buy
       else if rsi < 50 ∧ ml < ms ∧ k < d ∧ pd ≤ pk then some .sell
       else none)) ∧
    (d < k → pd < pk →
      analyze (populated rsi ml ms k d pk pd atr n) = .ok none) := by
  have hmain : analyze (populated rsi ml ms k d pk pd atr n) = .ok
      (if 50 < rsi ∧ ms < ml ∧ d < k ∧ pk ≤ pd then some .buy
       else if rsi < 50 ∧ ml < ms ∧ k < d ∧ pd ≤ pk then some .sell
       else none) := by
    rw [analyze_cols (a := populated rsi ml ms k d pk pd atr n) rfl hn rfl hatr
      rfl rfl rfl]
    simp only [vgt, vlt, vle, vge, Bool.and_eq_true, decide_eq_true_eq]
  refine ⟨hmain, fun hdk hpd => ?_⟩
  rw [hmain, if_neg (by rintro ⟨-, -, -, h⟩; exact absurd h (by linarith)),
    if_neg (by rintro ⟨-, -, h, -⟩; exact absurd h (by linarith))]

theorem classifier_rule_witness :
    analyze (populated 60 1 0 2 1 0 1 MIN_ATR 30) = .ok
      (if (50 : ℚ) < 60 ∧ (0 : ℚ) < 1 ∧ (1 : ℚ) < 2 ∧ (0 : ℚ) ≤ 1
        then some .buy
        else if (60 : ℚ) < 50 ∧ (1 : ℚ) < 0 ∧ (2 : ℚ) < 1 ∧ (1 : ℚ) ≤ 0
          then some .sell
          else none) :=
  (classifier_rule 60 1 0 2 1 0 1 MIN_ATR 30 (le_refl 30) (le_refl MIN_ATR)).1

/-! ## C6: the cadence gate -/

/-- C6: a tick runs an evaluation pass iff the current hour lies in
`[START_HOUR, END_HOUR)` and `now` is strictly beyond the cooldown window
after `lastSignalTime`; with `last = 36000` (10:00:00 UTC) a tick 4 min 59 s
later stays idle and a tick 5 min 1 s later evaluates. -/
theorem cadence_rule :
    (∀ (e : Env) (now last : ℕ),
        (tickStep e now last).2 ≠ .idle ↔
          START_HOUR ≤ hourOf now ∧ hourOf now < END_HOUR ∧
            last + COOLDOWN_MIN * 60 < now) ∧
      (tickStep envNull 36299 36000).2 = .idle ∧
      (tickStep envNull 36301 36000).2 ≠ .idle := by
  have key : ∀ (e : Env) (now last : ℕ),
      (tickStep e now last).2 ≠ .idle ↔
        START_HOUR ≤ hourOf now ∧ hourOf now < END_HOUR ∧
          last + COOLDOWN_MIN * 60 < now := by
    intro e now last
    unfold tickStep
    by_cases h : gateOpen now last = true
    · rw [if_pos h]
      unfold gateOpen at h
      simp only [Bool.and_eq_true, decide_eq_true_eq] at h
      constructor
      · exact fun _ => ⟨h.1.1, h.1.2, h.2⟩
      · intro _
        by_cases hr : (get_strength e.snap).isEmpty <;> simp only [hr] <;> simp
        cases houtcome : (passResult e).outcome <;> simp
    · rw [if_neg h]
      unfold gateOpen at h
      simp only [Bool.and_eq_true, decide_eq_true_eq, not_and] at h
      constructor
      · intro hc
        exact absurd rfl hc
      · rintro ⟨h1, h2, h3⟩
        exact absurd h3 (h ⟨h1, h2⟩)
  refine ⟨key, ?_, (key envNull 36301 36000).mpr ⟨by decide, by decide, by decide⟩⟩
  have : gateOpen 36299 36000 = false := by decide
  unfold tickStep
  rw [this]
  simp

/-! ## C3: delivery failure and the cooldown -/

/-- C3 counterexample: at tick 36301 with `last = 36000` the pass finds an
eligible BUY on EURUSD; when the dispatch raises, `last_signal_time` keeps
its old value 36000 instead of being set to 36301 as it is on a successful
delivery, so the cooldown is NOT applied. -/
theorem cooldown_not_applied_on_send_failure :
    (tickStep envSendFail 36301 36000).2 = .ran ⟨[pEURUSD], [], .raised⟩ ∧
      (tickStep envSendFail 36301 36000).1 = 36000 ∧
      (tickStep envSendNormal 36301 36000).1 = 36301 := by
  refine ⟨?_, ?_, ?_⟩ <;> with_unfolding_all decide

/-- C3 amended: when the pass raises — in particular when the dispatch of
an eligible signal fails — `last_signal_time` is NOT updated (line 114 is
skipped by the exception), so the cooldown is not applied and later ticks
may evaluate again at once. -/
theorem send_failure_skips_cooldown (e : Env) (now last : ℕ)
    (r : ScanResult) (h : (tickStep e now last).2 = .ran r)
    (hr : r.outcome = .raised) :
    (tickStep e now last).1 = last := by
  unfold tickStep at h ⊢
  by_cases hg : gateOpen now last = true
  · rw [if_pos hg] at h ⊢
    by_cases he : (get_strength e.snap).isEmpty = true
    · rw [if_pos he] at h
      simp at h
    · rw [if_neg he] at h ⊢
      rcases ho : (passResult e).outcome with p | - | -
      · rw [ho] at h
        simp only at h
        injection h with h
        rw [← h] at hr
        rw [ho] at hr
        exact absurd hr (by simp)
      · rfl
      · rfl
  · rw [if_neg hg] at h
    simp at h

theorem send_failure_skips_cooldown_witness :
    (tickStep envSendFail 36301 36000).1 = 36000 :=
  send_failure_skips_cooldown envSendFail 36301 36000
    ⟨[pEURUSD], [], .raised⟩ (by with_unfolding_all decide) rfl

/-! ## C4: indicator failure policy -/

lemma vgt_none_left (y : Val) : vgt none y = false := rfl

lemma vgt_none_right (x : Val) : vgt x none = false := by cases x <;> rfl

lemma vlt_none_left (y : Val) : vlt none y = false := rfl

lemma vlt_none_right (x : Val) : vlt x none = false := by cases x <;> rfl

lemma vle_none_left (y : Val) : vle none y = false := rfl

lemma vle_none_right (x : Val) : vle x none = false := by cases x <;> rfl

lemma vge_none_left (y : Val) : vge none y = false := rfl

lemma vge_none_right (x : Val) : vge x none = false := by cases x <;> rfl

/-- C4 counterexample: EURUSD's MACD computation returned no result, so its
`macd_line`/`macd_signal` columns are missing; `analyze` raises KeyError
instead of returning no signal, and the exception aborts the pass: of the
15 configured instruments only EURUSD is evaluated this tick — the
remaining 14 are skipped. -/
theorem missing_macd_aborts_pass :
    analyze inMacdMissing = .exn ∧
      (tickStep envMacdMissing 36301 36000).2 =
        .ran ⟨[pEURUSD], [], .raised⟩ ∧
      PAIRS.length = 15 := by
  refine ⟨?_, ?_, ?_⟩ <;> with_unfolding_all decide

/-- C4 amended: an indicator value that is present but NaN makes the
classifier return no signal, and the scan then continues with the
remaining instruments, so only that instrument is skipped; but when the
MACD or stochastic computation returns no result (columns missing) and the
RSI test forces a read, `analyze` raises, and the exception ends the scan:
the remaining instruments of the pass are not evaluated this tick. -/
theorem indicator_failure_policy :
    (∀ (a : AnalyzeInput) (av : ℚ) (rv mlv msv kv dv pkv pdv : Val),
        a.dfSome = true → 30 ≤ a.dfLen →
        a.atrCol = some (some av) → MIN_ATR ≤ av →
        a.rsiCol = some rv → a.macdCols = some (mlv, msv) →
        a.stochCols = some (kv, dv, pkv, pdv) →
        (rv = none ∨ mlv = none ∨ msv = none ∨ kv = none ∨ dv = none ∨
          pkv = none ∨ pdv = none) →
        analyze a = .ok none) ∧
      (∀ (data : String → AnalyzeInput) (sendOK : String → Bool)
          (top3 bot3 : List String) (p : String) (rest : List String),
        analyze (data p) = .ok none →
        scanPairs data sendOK top3 bot3 (p :: rest) =
          ⟨p :: (scanPairs data sendOK top3 bot3 rest).evaluated,
            (scanPairs data sendOK top3 bot3 rest).sends,
            (scanPairs data sendOK top3 bot3 rest).outcome⟩) ∧
      ∀ (data : String → AnalyzeInput) (sendOK : String → Bool)
          (top3 bot3 : List String) (p : String) (rest : List String),
        analyze (data p) = .exn →
        scanPairs data sendOK top3 bot3 (p :: rest) = ⟨[p], [], .raised⟩ := by
  refine ⟨?_, ?_, ?_⟩
  · intro a av rv mlv msv kv dv pkv pdv hdf hlen ha hatr hr hm hst hnan
    rw [analyze_cols hdf hlen ha hatr hr hm hst]
    rcases hnan with rfl | rfl | rfl | rfl | rfl | rfl | rfl <;>
      simp [vgt_none_left, vgt_none_right, vlt_none_left, vlt_none_right,
        vle_none_left, vle_none_right, vge_none_left, vge_none_right]
  · intro data sendOK top3 bot3 p rest h
    simp only [scanPairs, h]
  · intro data sendOK top3 bot3 p rest h
    simp only [scanPairs, h]

/-! ## C7: one delivery per pass, first eligible signal wins -/

lemma hitBy_of_signal {data : String → AnalyzeInput} {top3 bot3 : List String}
    {p : String} {sig : Signal} (h : analyze (data p) = .ok (some sig)) :
    hitBy data top3 bot3 p = eligible sig (baseOf p) (quoteOf p) top3 bot3 := by
  unfold hitBy
  rw [h]

lemma hitBy_false_of_none {data : String → AnalyzeInput}
    {top3 bot3 : List String} {p : String} (h : analyze (data p) = .ok none) :
    hitBy data top3 bot3 p = false := by
  unfold hitBy
  rw [h]

lemma scanPairs_sends_length (data : String → AnalyzeInput)
    (sendOK : String → Bool) (top3 bot3 : List String) :
    ∀ l : List String, (scanPairs data sendOK top3 bot3 l).sends.length ≤ 1 := by
  intro l
  induction l with
  | nil => simp [scanPairs]
  | cons p rest ih =>
    simp only [scanPairs]
    cases h : analyze (data p) with
    | exn => simp
    | ok s =>
      cases s with
      | none => simpa using ih
      | some sig =>
        by_cases he : eligible sig (baseOf p) (quoteOf p) top3 bot3 = true
        · by_cases hs : sendOK p = true <;> simp [he, hs]
        · simp only [Bool.not_eq_true] at he
          simpa [he] using ih

lemma scanPairs_evaluated_isPrefix (data : String → AnalyzeInput)
    (sendOK : String → Bool) (top3 bot3 : List String) :
    ∀ l : List String,
      ∃ t, (scanPairs data sendOK top3 bot3 l).evaluated ++ t = l := by
  intro l
  induction l with
  | nil => exact ⟨[], rfl⟩
  | cons p rest ih =>
    simp only [scanPairs]
    cases h : analyze (data p) with
    | exn => exact ⟨rest, rfl⟩
    | ok s =>
      cases s with
      | none =>
        obtain ⟨t, ht⟩ := ih
        exact ⟨t, by simp [ht]⟩
      | some sig =>
        by_cases he : eligible sig (baseOf p) (quoteOf p) top3 bot3 = true
        · by_cases hs : sendOK p = true
          · exact ⟨rest, by simp [he, hs]⟩
          · simp only [Bool.not_eq_true] at hs
            exact ⟨rest, by simp [he, hs]⟩
        · simp only [Bool.not_eq_true] at he
          obtain ⟨t, ht⟩ := ih
          exact ⟨t, by simp [he, ht]⟩

lemma scanPairs_first_hit (data : String → AnalyzeInput)
    (top3 bot3 : List String) :
    ∀ l : List String, (∀ p ∈ l, analyze (data p) ≠ .exn) →
      (∀ q, l.find? (hitBy data top3 bot3) = some q →
        scanPairs data (fun _ => true) top3 bot3 l =
          ⟨l.takeWhile (fun x => !hitBy data top3 bot3 x) ++ [q], [q],
            .dispatched q⟩) ∧
      (l.find? (hitBy data top3 bot3) = none →
        scanPairs data (fun _ => true) top3 bot3 l = ⟨l, [], .exhausted⟩) := by
  intro l
  induction l with
  | nil =>
    intro _
    exact ⟨fun q hq => by simp at hq, fun _ => by simp [scanPairs]⟩
  | cons p rest ih =>
    intro hexn
    have hp : analyze (data p) ≠ .exn := hexn p (by simp)
    have ihr := ih fun q hq => hexn q (by simp [hq])
    cases h : analyze (data p) with
    | exn => exact absurd h hp
    | ok s =>
      cases s with
      | none =>
        have hhit : hitBy data top3 bot3 p = false := hitBy_false_of_none h
        constructor
        · intro q hq
          rw [List.find?_cons_of_neg _ (by simp [hhit])] at hq
          have hscan := ihr.1 q hq
          simp only [scanPairs, h, hscan, List.takeWhile_cons, hhit]
          simp
        · intro hq
          rw [List.find?_cons_of_neg _ (by simp [hhit])] at hq
          simp only [scanPairs, h, ihr.2 hq]
      | some sig =>
        by_cases he : eligible sig (baseOf p) (quoteOf p) top3 bot3 = true
        · have hhit : hitBy data top3 bot3 p = true := by
            rw [hitBy_of_signal h]
            exact he
          constructor
          · intro q hq
            rw [List.find?_cons_of_pos _ (by simp [hhit])] at hq
            injection hq with hq
            subst hq
            simp only [scanPairs, h, he, List.takeWhile_cons, hhit]
            simp
          · intro hq
            rw [List.find?_cons_of_pos _ (by simp [hhit])] at hq
            cases hq
        · have hhit : hitBy data top3 bot3 p = false := by
            rw [hitBy_of_signal h]
            simpa using he
          constructor
          · intro q hq
            rw [List.find?_cons_of_neg _ (by simp [hhit])] at hq
            have hscan := ihr.1 q hq
            simp only [Bool.not_eq_true] at he
            simp only [scanPairs, h, he, hscan, List.takeWhile_cons, hhit]
            simp
          · intro hq
            rw [List.find?_cons_of_neg _ (by simp [hhit])] at hq
            simp only [Bool.not_eq_true] at he
            simp only [scanPairs, h, he, ihr.2 hq]
            simp

/-- C7: each pass walks `PAIRS` in the configured order (whatever it
evaluates is a prefix of `PAIRS`), delivers at most one message, and — when
no instrument raises and the sink is healthy — dispatches exactly on the
first pair whose signal passes the gate, stopping there, or exhausts the
whole list if none does; on a dispatch the tick sets `last_signal_time` to
the tick's `now`. -/
theorem first_eligible_policy :
    (∀ (data : String → AnalyzeInput) (sendOK : String → Bool)
        (top3 bot3 : List String),
        (scanPairs data sendOK top3 bot3 PAIRS).sends.length ≤ 1) ∧
      (∀ (data : String → AnalyzeInput) (sendOK : String → Bool)
          (top3 bot3 : List String),
        (scanPairs data sendOK top3 bot3 PAIRS).evaluated <+: PAIRS) ∧
      (∀ (data : String → AnalyzeInput) (top3 bot3 : List String),
        (∀ p ∈ PAIRS, analyze (data p) ≠ .exn) →
        (∀ q, PAIRS.find? (hitBy data top3 bot3) = some q →
          scanPairs data (fun _ => true) top3 bot3 PAIRS =
            ⟨PAIRS.takeWhile (fun x => !hitBy data top3 bot3 x) ++ [q], [q],
              .dispatched q⟩) ∧
        (PAIRS.find? (hitBy data top3 bot3) = none →
          scanPairs data (fun _ => true) top3 bot3 PAIRS =
            ⟨PAIRS, [], .exhausted⟩)) ∧
      ∀ (e : Env) (now last : ℕ) (r : ScanResult) (p : String),
        (tickStep e now last).2 = .ran r → r.outcome = .dispatched p →
        (tickStep e now last).1 = now := by
  refine ⟨?_, ?_, ?_, ?_⟩
  · exact fun data sendOK top3 bot3 =>
      scanPairs_sends_length data sendOK top3 bot3 PAIRS
  · exact fun data sendOK top3 bot3 =>
      scanPairs_evaluated_isPrefix data sendOK top3 bot3 PAIRS
  · exact fun data top3 bot3 hexn =>
      scanPairs_first_hit data top3 bot3 PAIRS hexn
  · intro e now last r p h hp
    unfold tickStep at h ⊢
    by_cases hg : gateOpen now last = true
    · rw [if_pos hg] at h ⊢
      by_cases he : (get_strength e.snap).isEmpty = true
      · rw [if_pos he] at h
        simp at h
      · rw [if_neg he] at h ⊢
        rcases ho : (passResult e).outcome with q | - | -
        · rfl
        · rw [ho] at h
          injection h with h
          rw [← h] at hp
          rw [ho] at hp
          simp at hp
        · rw [ho] at h
          injection h with h
          rw [← h] at hp
          rw [ho] at hp
          simp at hp
    · rw [if_neg hg] at h
      simp at h

/-! ## C5: the strength ranker -/

lemma scoreLe_trans : ∀ a b c : String × ℚ, scoreLe a b → scoreLe b c →
    scoreLe a c := by
  intro a b c hab hbc
  simp only [scoreLe, decide_eq_true_eq] at hab hbc ⊢
  exact le_trans hbc hab

lemma scoreLe_total : ∀ a b : String × ℚ, scoreLe a b || scoreLe b a := by
  intro a b
  simp only [scoreLe, Bool.or_eq_true, decide_eq_true_eq]
  exact le_total b.2 a.2

lemma contribs_eq_nil_of_not_mem (snap : Snapshot) {c : String}
    (hc : c ∉ CURRENCIES) :
    ∀ l : List String, contribs snap c l = [] := by
  intro l
  induction l with
  | nil => rfl
  | cons p t ih =>
    simp only [contribs, ih]
    cases snap p with
    | none => simp
    | some r => simp [hc]

/-- C5: the ranker's output lists exactly the currencies with at least one
contribution (base contributes `r`, quote `100 − r`), scored by the
arithmetic mean of their contribution lists; the output is sorted by
descending score; and any two aggregation entries already in descending
order — in particular any tie — keep their relative order (stability of
the sort over the fixed currency-map iteration order). -/
theorem strength_ranker_spec (snap : Snapshot) :
    (∀ (c : String) (s : ℚ),
        (c, s) ∈ get_strength snap ↔
          contribs snap c PAIRS ≠ [] ∧ s = mean (contribs snap c PAIRS)) ∧
      (get_strength snap).Pairwise (fun a b => b.2 ≤ a.2) ∧
      ∀ x y : String × ℚ,
        List.Sublist [x, y] (strengthItems snap) → y.2 ≤ x.2 →
        List.Sublist [x, y] (get_strength snap) := by
  refine ⟨?_, ?_, ?_⟩
  · intro c s
    unfold get_strength
    rw [List.mem_mergeSort]
    unfold strengthItems
    rw [List.mem_filterMap]
    constructor
    · rintro ⟨c', hc', hf⟩
      by_cases hnil : contribs snap c' PAIRS = []
      · rw [if_pos hnil] at hf
        cases hf
      · rw [if_neg hnil] at hf
        simp only [Option.some.injEq, Prod.mk.injEq] at hf
        obtain ⟨rfl, rfl⟩ := hf
        exact ⟨hnil, rfl⟩
    · rintro ⟨hnil, rfl⟩
      have hcmem : c ∈ CURRENCIES := by
        by_contra hmem
        exact hnil (contribs_eq_nil_of_not_mem snap hmem PAIRS)
      exact ⟨c, hcmem, by rw [if_neg hnil]⟩
  · unfold get_strength
    exact (List.sorted_mergeSort scoreLe_trans scoreLe_total
      (strengthItems snap)).imp fun h => by simpa [scoreLe] using h
  · intro x y hsub hle
    unfold get_strength
    refine List.sublist_mergeSort scoreLe_trans scoreLe_total ?_ hsub
    rw [List.pairwise_cons]
    refine ⟨?_, by simp⟩
    intro a ha
    simp only [List.mem_singleton] at ha
    subst ha
    simpa [scoreLe] using hle

/-! ## C10: top-3 / bottom-3 overlap on small rankings -/

lemma take_drop_overlap {α : Type} (l : List α) (hne : l ≠ [])
    (hlt : l.length < 6) :
    ∃ a, a ∈ l.take 3 ∧ a ∈ l.drop (l.length - 3) := by
  have hn : 0 < l.length := List.length_pos.mpr hne
  have h3 : l.length - 3 < l.length := by omega
  refine ⟨l.get ⟨l.length - 3, h3⟩, ?_, ?_⟩
  · have hlen : l.length - 3 < (l.take 3).length := by
      simp only [List.length_take]
      omega
    have he : (l.take 3).get ⟨l.length - 3, hlen⟩ = l.get ⟨l.length - 3, h3⟩ := by
      simp only [List.get_eq_getElem]
      exact List.getElem_take l
    rw [← he]
    exact List.get_mem _ _ _
  · have hd : 0 < (l.drop (l.length - 3)).length := by
      simp only [List.length_drop]
      omega
    have he : (l.drop (l.length - 3)).get ⟨0, hd⟩ = l.get ⟨l.length - 3, h3⟩ := by
      simp only [List.get_eq_getElem]
      exact List.getElem_drop l
    rw [← he]
    exact List.get_mem _ _ _

/-- C10 counterexample: an all-empty snapshot gives the empty ranking; its
length is below 6, yet the top-3 and bottom-3 slices are both empty and
share no currency at all. -/
theorem empty_ranking_no_overlap :
    (get_strength snapNone).length < 6 ∧
      ¬∃ c, c ∈ top3Of (get_strength snapNone) ∧
        c ∈ bot3Of (get_strength snapNone) := by
  have h : get_strength snapNone = [] := by with_unfolding_all decide
  rw [h]
  constructor
  · decide
  · rintro ⟨c, hc, -⟩
    simp [top3Of] at hc

/-- C10 amended: whenever the ranking is nonempty and has fewer than 6
entries, the top-3 and bottom-3 lists share a currency; and on the
two-currency ranking produced by `snapEU`, both a BUY and a SELL on
EURUSD pass the gate in the same pass. -/
theorem small_ranking_overlap :
    (∀ snap : Snapshot, get_strength snap ≠ [] →
        (get_strength snap).length < 6 →
        ∃ c, c ∈ top3Of (get_strength snap) ∧
          c ∈ bot3Of (get_strength snap)) ∧
      eligible .buy cEUR cUSD (top3Of (get_strength snapEU))
          (bot3Of (get_strength snapEU)) = true ∧
      eligible .sell cEUR cUSD (top3Of (get_strength snapEU))
          (bot3Of (get_strength snapEU)) = true := by
  refine ⟨?_, by with_unfolding_all decide, by with_unfolding_all decide⟩
  intro snap hne hlt
  obtain ⟨a, ht, hd⟩ := take_drop_overlap (get_strength snap) hne hlt
  refine ⟨a.1, ?_, ?_⟩
  · unfold top3Of
    exact List.mem_map_of_mem Prod.fst ht
  · unfold bot3Of
    exact List.mem_map_of_mem Prod.fst hd

end IndicatorBot
